import Mathlib

/-
Verification of the LawBot keyword-matching responder (chatbot.py).

The core is embedded shallowly:
  * `LANGUAGES`, `DEFAULT_LANGUAGE` mirror the module-level constants;
  * a statute record is a `Record`; a per-language partition is an
    association list `Partition` in the data file's declared order
    (Python dicts preserve insertion order);
  * `load_law_data` mirrors the load loop's per-language merge
    `law_data[lang] = \x7b**ipc_data, **crpc_data\x7d`, with the two already
    parsed category files supplied as parameters (file I/O is external);
  * `detect_language` mirrors the mapping of the external detector's
    outcome onto the supported set; the external `langdetect.detect`
    call is an oracle parameter: `some code` for a returned code,
    `none` for a raised `LangDetectException`;
  * `get_lawbot_response` mirrors the responder; a `KeyError` escaping
    the Python function is modelled as `none`.
-/

namespace LawBot

def LANGUAGES : List (String × String) :=
  [("en", "English"), ("hi", "Hindi"), ("bn", "Bengali"),
   ("ur", "Urdu"), ("pa", "Punjabi")]

def DEFAULT_LANGUAGE : String := "en"

/-- One statute record of a knowledge-base partition: the JSON object's
`title`, `summary`, `steps` and `keywords` fields (a record missing the
`keywords` field is embedded with `keywords := []`, as `info.get("keywords", [])`
reads it). -/
structure Record where
  title : String
  summary : String
  steps : List String
  keywords : List String
deriving DecidableEq, Repr

/-- A knowledge-base partition: section key to record, in insertion order. -/
abbrev Partition := List (String × Record)

/-- The whole knowledge base: language code to partition. -/
abbrev LawData := List (String × Partition)

/-- Python dict merge `\x7b**a, **b\x7d`: entries of `a` in order, with a
value overridden by `b` where the key collides, then the entries of `b`
whose keys are not in `a`, in order. -/
def mergeDicts (a b : Partition) : Partition :=
  (a.map fun p => match b.lookup p.1 with
    | some v => (p.1, v)
    | none => p)
  ++ b.filter fun p => (a.lookup p.1).isNone

/-- The load loop of chatbot.py: for each supported language,
`law_data[lang] = \x7b**ipc_data, **crpc_data\x7d`, with `ipc` and `crpc` the
parsed category files resolved for that language. -/
def load_law_data (ipc crpc : String → Partition) : LawData :=
  LANGUAGES.map fun p => (p.1, mergeDicts (ipc p.1) (crpc p.1))

/-- `detect_language`: maps the external detector's outcome (`none` when
`LangDetectException` was raised) onto the supported set. -/
def detect_language (detector : Option String) : String :=
  match detector with
  | some lang_code =>
    if lang_code = "hi" ∨ lang_code = "ne" then "hi"
    else if lang_code = "bn" then "bn"
    else if lang_code = "ur" then "ur"
    else if lang_code = "pa" then "pa"
    else "en"
  | none => "en"

/-- The per-language template bundle of the `responses` literal. -/
structure Labels where
  not_found : String
  sectionLabel : String
  summaryLabel : String
  stepsLabel : String
deriving DecidableEq, Repr

def enLabels : Labels :=
  ⟨"❌ Sorry, I couldn't match your issue with a specific law. Please rephrase your question.",
   "📘 Section", "🔍 Summary", "📝 Steps to Take"⟩

def hiLabels : Labels :=
  ⟨"❌ क्षमा करें, मैं आपके मुद्दे को किसी विशिष्ट कानून से मेल नहीं कर सका। कृपया अपना प्रश्न फिर से बताएं।",
   "📘 धारा", "🔍 सारांश", "📝 कार्रवाई के चरण"⟩

def bnLabels : Labels :=
  ⟨"❌ দুঃখিত, আমি আপনার সমস্যাটিকে কোনও নির্দিষ্ট আইনের সাথে মেলাতে পারিনি। অনুগ্রহ করে আপনার প্রশ্নটি পুনরায় বলুন।",
   "📘 ধারা", "🔍 সারাংশ", "📝 পদক্ষেপ নিতে"⟩

def urLabels : Labels :=
  ⟨"❌ معذرت، میں آپ کے مسئلے کو کسی مخصوص قانون سے مطابقت نہیں کر سکا۔ براہ کرم اپنا سوال دوبارہ بیان کریں۔",
   "📘 سیکشن", "🔍 خلاصہ", "📝 اقدامات"⟩

def paLabels : Labels :=
  ⟨"❌ ਮੁਆਫ ਕਰਨਾ, ਮੈਂ ਤੁਹਾਡੇ ਮੁੱਦੇ ਨੂੰ ਕਿਸੇ ਖਾਸ ਕਾਨੂੰਨ ਨਾਲ ਮੇਲ ਨਹੀਂ ਕਰ ਸਕਿਆ। ਕਿਰਪਾ ਕਰਕੇ ਆਪਣਾ ਸਵਾਲ ਦੁਬਾਰਾ ਕਹੋ।",
   "📘 ਸੈਕਸ਼ਨ", "🔍 ਸਾਰ", "📝 ਕਦਮ ਚੁੱਕਣ ਲਈ"⟩

/-- The `responses` dict literal of `get_lawbot_response`; `none` for a key
outside it (a Python access would raise `KeyError`). -/
def responses : String → Option Labels
  | "en" => some enLabels
  | "hi" => some hiLabels
  | "bn" => some bnLabels
  | "ur" => some urLabels
  | "pa" => some paLabels
  | _ => none

/-- Python `str.lower()`, modelled charwise (ASCII case mapping). -/
def pyLower (s : String) : String := String.mk (s.data.map Char.toLower)

/-- Split a character list at every character satisfying `p`, keeping the
(possibly empty) pieces between separators. -/
def splitOnPred (p : Char → Bool) : List Char → List (List Char)
  | [] => [[]]
  | c :: cs =>
    if p c then [] :: splitOnPred p cs
    else match splitOnPred p cs with
      | [] => [[c]]
      | w :: ws => (c :: w) :: ws

/-- Python `str.split()` with no argument: split on whitespace,
dropping the empty pieces, so a whitespace-only string yields `[]`. -/
def pySplit (s : String) : List String :=
  ((splitOnPred (fun c => c.isWhitespace) s.data).map String.mk).filter fun w => w ≠ ""

/-- Python `word in user_input`: substring containment. -/
def wordIn (word input : String) : Bool :=
  decide (word.data <:+: input.data)

/-- `all(word in user_input for word in keyword.split())`. -/
def keywordMatches (keyword input : String) : Bool :=
  (pySplit keyword).all fun w => wordIn w input

/-- The inner loop's condition: some keyword phrase of the record has all
its words contained in the (already lower-cased) input. -/
def recordMatches (info : Record) (input : String) : Bool :=
  info.keywords.any fun kw => keywordMatches kw input

/-- The scan `for section, info in law_data[detected_lang].items()`:
the first record of the partition whose keywords match. -/
def searchPartition (part : Partition) (input : String) : Option (String × Record) :=
  part.find? fun p => recordMatches p.2 input

/-- The `response_text` assembly of lines 124-128 / 139-143. -/
def composeSteps (i : Nat) : List String → String
  | [] => ""
  | s :: rest => toString i ++ ". " ++ s ++ "\n" ++ composeSteps (i + 1) rest

def compose (L : Labels) (key : String) (info : Record) : String :=
  L.sectionLabel ++ ": " ++ key ++ " - " ++ info.title ++ "\n\n" ++
  L.summaryLabel ++ ": " ++ info.summary ++ "\n\n" ++
  L.stepsLabel ++ ":\n" ++ composeSteps 1 info.steps

/-- The dict returned by `get_lawbot_response`. -/
structure BotResponse where
  text : String
  detected_language : String
deriving DecidableEq, Repr

/-- Lines 76-84: the explicit `lang` if truthy (Python `if not lang`
treats `None` and `""` as falsy), else the detector's mapping; then the
fallback to the default language when the resolved code has no partition. -/
def resolve_language (ld : LawData) (detector : Option String) (lang : Option String) : String :=
  let lang0 := match lang with
    | none => detect_language detector
    | some l => if l = "" then detect_language detector else l
  if (ld.lookup lang0).isSome then lang0 else DEFAULT_LANGUAGE

/-- Lines 120-152, after the language was resolved: search the resolved
partition, then (when the resolved language is not the default) the default
partition, composing with the resolved language's labels; otherwise the
resolved language's not-found sentence. -/
def respond (ld : LawData) (detected : String) (input : String) : Option BotResponse :=
  match responses detected, ld.lookup detected with
  | some L, some part =>
    match searchPartition part input with
    | some ki => some ⟨compose L ki.1 ki.2, detected⟩
    | none =>
      if detected ≠ DEFAULT_LANGUAGE then
        match ld.lookup DEFAULT_LANGUAGE with
        | some pd =>
          match searchPartition pd input with
          | some ki => some ⟨compose L ki.1 ki.2, detected⟩
          | none => some ⟨L.not_found, detected⟩
        | none => none
      else some ⟨L.not_found, detected⟩
  | _, _ => none

/-- `get_lawbot_response(user_input, lang)`: lower-case the input, resolve
the language, answer. `ld` is the module-level `law_data`, `detector` the
external detector's outcome on the lowered input. -/
def get_lawbot_response (ld : LawData) (detector : Option String)
    (user_input : String) (lang : Option String) : Option BotResponse :=
  respond ld (resolve_language ld detector lang) (pyLower user_input)

/-
Concrete fixtures (the shape of the spec's own example record) used by the
closed evaluation theorems.
-/

def rec302 : Record :=
  ⟨"Murder", "Punishment for murder", ["File FIR", "Consult a lawyer"],
   ["murder intention kill"]⟩

def demoEn : Partition := [("302", rec302)]

def demoLD : LawData := [("en", demoEn)]

/-
Basic lemmas about the partition scan and the responder.
-/

theorem find?_first {α : Type} (p : α → Bool) (pre : List α) (x : α) (post : List α)
    (hpre : ∀ a ∈ pre, p a = false) (hx : p x = true) :
    List.find? p (pre ++ x :: post) = some x := by
  induction pre with
  | nil => simp [List.find?_cons, hx]
  | cons q qre ih =>
    have hq := hpre q (by simp)
    simp only [List.cons_append, List.find?_cons, hq]
    exact ih fun a ha => hpre a (by simp [ha])

theorem searchPartition_first (input : String) (pre : Partition) (key : String)
    (info : Record) (post : Partition)
    (hpre : ∀ p ∈ pre, recordMatches p.2 input = false)
    (hm : recordMatches info input = true) :
    searchPartition (pre ++ (key, info) :: post) input = some (key, info) := by
  unfold searchPartition
  exact find?_first (fun p => recordMatches p.2 input) pre (key, info) post
    (fun a ha => hpre a ha) hm

theorem respond_found (ld : LawData) (dl : String) (input : String) (L : Labels)
    (part : Partition) (key : String) (info : Record)
    (hL : responses dl = some L) (hp : ld.lookup dl = some part)
    (hs : searchPartition part input = some (key, info)) :
    respond ld dl input = some ⟨compose L key info, dl⟩ := by
  simp [respond, hL, hp, hs]

theorem answer_of_first_match (ld : LawData) (detector : Option String)
    (user_input : String) (lang : Option String) (dl : String) (L : Labels)
    (pre : Partition) (key : String) (info : Record) (post : Partition)
    (hres : resolve_language ld detector lang = dl)
    (hL : responses dl = some L)
    (hp : ld.lookup dl = some (pre ++ (key, info) :: post))
    (hpre : ∀ p ∈ pre, recordMatches p.2 (pyLower user_input) = false)
    (hm : recordMatches info (pyLower user_input) = true) :
    get_lawbot_response ld detector user_input lang = some ⟨compose L key info, dl⟩ := by
  have hs := searchPartition_first (pyLower user_input) pre key info post hpre hm
  unfold get_lawbot_response
  rw [hres]
  exact respond_found ld dl _ L _ key info hL hp hs

/-
Claims.
-/

/-- C1: a record matches the lower-cased input iff at least one of its
keyword phrases has all of its constituent words present as substrings of
the lower-cased input, and the answer is the composed response of the
first matching record in the partition's iteration order. -/
theorem record_match_iff_and_first_wins
    (ld : LawData) (detector : Option String) (user_input : String)
    (lang : Option String) (dl : String) (L : Labels) (part : Partition)
    (hres : resolve_language ld detector lang = dl)
    (hL : responses dl = some L)
    (hp : ld.lookup dl = some part) :
    (∀ info : Record, recordMatches info (pyLower user_input) = true ↔
      ∃ kw ∈ info.keywords, ∀ w ∈ pySplit kw, w.data <:+: (pyLower user_input).data)
    ∧ ∀ pre key info post,
        part = pre ++ (key, info) :: post →
        (∀ p ∈ pre, recordMatches p.2 (pyLower user_input) = false) →
        recordMatches info (pyLower user_input) = true →
        get_lawbot_response ld detector user_input lang = some ⟨compose L key info, dl⟩ := by
  constructor
  · intro info
    simp [recordMatches, keywordMatches, wordIn, List.any_eq_true, List.all_eq_true]
  · intro pre key info post hpart hpre hm
    exact answer_of_first_match ld detector user_input lang dl L pre key info post
      hres hL (hpart ▸ hp) hpre hm

/-- C1 witness: the spec's own example evaluated on the fixture base. -/
theorem record_match_iff_and_first_wins_witness :
    get_lawbot_response demoLD none "he planned to kill him with intention to murder" (some "en")
      = some ⟨compose enLabels "302" rec302, "en"⟩ :=
  (record_match_iff_and_first_wins demoLD none
      "he planned to kill him with intention to murder" (some "en") "en" enLabels demoEn
      (by decide) rfl rfl).2
    [] "302" rec302 [] rfl (by simp) (by decide)

/-- One line per list element, each line terminated by a newline. -/
def concatLines : List String → String
  | [] => ""
  | s :: rest => s ++ "\n" ++ concatLines rest

/-- The rendering the spec describes, stated independently of `compose`:
a header line with the section label, the section key and the title; a
blank line; the summary label and summary text; a blank line; the steps
label; then the steps as a 1-based numbered list, one step per line, each
line of the form `i. step`. -/
def composeSpec (L : Labels) (key : String) (info : Record) : String :=
  concatLines
    ([L.sectionLabel ++ ": " ++ key ++ " - " ++ info.title,
      "",
      L.summaryLabel ++ ": " ++ info.summary,
      "",
      L.stepsLabel ++ ":"]
     ++ (info.steps.enumFrom 1).map fun p => toString p.1 ++ ". " ++ p.2)

theorem composeSteps_eq_lines (steps : List String) :
    ∀ n : Nat, composeSteps n steps
      = concatLines ((steps.enumFrom n).map fun p => toString p.1 ++ ". " ++ p.2) := by
  induction steps with
  | nil => intro n; rfl
  | cons s rest ih =>
    intro n
    simp only [List.enumFrom_cons, List.map_cons, concatLines, composeSteps, ih]

/-- C6: the composed response text is exactly the header line with section
label, key and title, a blank line, the summary line, a blank line, the
steps label line, then the steps as a 1-based numbered list with one
`i. step` line per step. -/
theorem compose_renders_template (L : Labels) (key : String) (info : Record) :
    compose L key info = composeSpec L key info := by
  apply String.ext
  simp [compose, composeSpec, concatLines, composeSteps_eq_lines, String.data_append]

theorem lookup_append (k : String) (l₁ l₂ : Partition) :
    (l₁ ++ l₂).lookup k = match l₁.lookup k with
      | some v => some v
      | none => l₂.lookup k := by
  induction l₁ with
  | nil => simp
  | cons p l ih =>
    obtain ⟨a, b⟩ := p
    simp only [List.cons_append, List.lookup_cons]
    cases h : (k == a) <;> simp [ih]

theorem lookup_map_override (a b : Partition) (k : String) :
    ∀ w : Record, a.lookup k = some w →
      (a.map fun p => match b.lookup p.1 with
        | some v => (p.1, v)
        | none => p).lookup k
      = match b.lookup k with
        | some v => some v
        | none => some w := by
  induction a with
  | nil => intro w h; simp at h
  | cons q qre ih =>
    obtain ⟨a1, v1⟩ := q
    intro w h
    rw [List.lookup_cons] at h
    simp only [List.map_cons]
    cases hb : b.lookup a1 with
    | some v =>
      cases hk : (k == a1) with
      | true =>
        have hka : k = a1 := eq_of_beq hk
        rw [hk] at h
        subst hka
        simp only [List.lookup_cons, hk, hb]
      | false =>
        rw [hk] at h
        simp only [List.lookup_cons, hk, hb]
        exact ih w h
    | none =>
      cases hk : (k == a1) with
      | true =>
        have hka : k = a1 := eq_of_beq hk
        rw [hk] at h
        cases h
        subst hka
        simp only [List.lookup_cons, hk, hb]
      | false =>
        rw [hk] at h
        simp only [List.lookup_cons, hk, hb]
        exact ih w h

theorem lookup_map_none (a b : Partition) (k : String) (h : a.lookup k = none) :
    (a.map fun p => match b.lookup p.1 with
      | some v => (p.1, v)
      | none => p).lookup k = none := by
  induction a with
  | nil => rfl
  | cons q qre ih =>
    obtain ⟨a1, v1⟩ := q
    rw [List.lookup_cons] at h
    cases hk : (k == a1) with
    | true => rw [hk] at h; cases h
    | false =>
      rw [hk] at h
      simp only [List.map_cons]
      cases hb : b.lookup a1 <;> simp only [List.lookup_cons, hk, hb] <;> exact ih h

theorem lookup_filter_of_none (a : Partition) (k : String) (h : a.lookup k = none)
    (l : Partition) :
    (l.filter fun p => (a.lookup p.1).isNone).lookup k = l.lookup k := by
  induction l with
  | nil => rfl
  | cons q l ih =>
    obtain ⟨a1, v1⟩ := q
    cases hk : (k == a1) with
    | true =>
      have hka : k = a1 := eq_of_beq hk
      subst hka
      have hkeep : (a.lookup k).isNone = true := by simp [h]
      simp only [List.filter_cons, hkeep, if_pos, List.lookup_cons, hk]
    | false =>
      cases hkeep : (a.lookup a1).isNone <;>
        simp only [List.filter_cons, hkeep, if_pos, if_neg, Bool.false_eq_true,
          not_false_iff, List.lookup_cons, hk] <;>
        exact ih

theorem mergeDicts_lookup (a b : Partition) (k : String) :
    (mergeDicts a b).lookup k = match b.lookup k with
      | some v => some v
      | none => a.lookup k := by
  unfold mergeDicts
  rw [lookup_append]
  cases ha : a.lookup k with
  | some w =>
    rw [lookup_map_override a b k w ha]
    cases hb : b.lookup k <;> simp [ha]
  | none =>
    rw [lookup_map_none a b k ha, lookup_filter_of_none a k ha b]
    cases hb : b.lookup k <;> simp [ha]

/-- C7: each supported language's partition is the dict merge of the IPC
category then the CrPC category, and a section key occurring in both
categories keeps the record of the last-loaded category (CrPC). -/
theorem partition_is_ipc_crpc_merge
    (ipc crpc : String → Partition) (l : String)
    (hl : l ∈ LANGUAGES.map Prod.fst) :
    (load_law_data ipc crpc).lookup l = some (mergeDicts (ipc l) (crpc l))
    ∧ ∀ (k : String) (v : Record), (crpc l).lookup k = some v →
        (mergeDicts (ipc l) (crpc l)).lookup k = some v := by
  constructor
  · simp only [LANGUAGES, List.map_cons, List.map_nil, List.mem_cons,
      List.not_mem_nil, or_false] at hl
    rcases hl with rfl | rfl | rfl | rfl | rfl <;> rfl
  · intro k v hv
    rw [mergeDicts_lookup, hv]

def recCrpc : Record :=
  ⟨"Murder procedure", "Trial procedure for murder", ["Appear before court"],
   ["procedure murder"]⟩

/-- C7 witness: a key present in both categories resolves to the CrPC
record in the loaded partition. -/
theorem partition_is_ipc_crpc_merge_witness :
    (load_law_data (fun _ => [("302", rec302)]) (fun _ => [("302", recCrpc)])).lookup "en"
      = some (mergeDicts [("302", rec302)] [("302", recCrpc)])
    ∧ (mergeDicts [("302", rec302)] [("302", recCrpc)]).lookup "302" = some recCrpc := by
  have h := partition_is_ipc_crpc_merge
    (fun _ => [("302", rec302)]) (fun _ => [("302", recCrpc)]) "en" (by decide)
  exact ⟨h.1, h.2 "302" recCrpc (by decide)⟩

/-- C10: a keyword phrase that splits into zero words (empty or
whitespace-only) matches every input vacuously, so a record carrying it is
returned for every query that reaches it in iteration order. -/
theorem empty_keyword_phrase_matches_vacuously
    (info : Record) (kw : String)
    (hkw : kw ∈ info.keywords) (hsplit : pySplit kw = []) :
    (∀ input : String, recordMatches info input = true)
    ∧ ∀ (ld : LawData) (detector : Option String) (user_input : String)
        (lang : Option String) (dl : String) (L : Labels)
        (pre : Partition) (key : String) (post : Partition),
        resolve_language ld detector lang = dl →
        responses dl = some L →
        ld.lookup dl = some (pre ++ (key, info) :: post) →
        (∀ p ∈ pre, recordMatches p.2 (pyLower user_input) = false) →
        get_lawbot_response ld detector user_input lang = some ⟨compose L key info, dl⟩ := by
  have hmatch : ∀ input : String, recordMatches info input = true := by
    intro input
    have : keywordMatches kw input = true := by
      simp [keywordMatches, hsplit]
    exact List.any_eq_true.mpr ⟨kw, hkw, this⟩
  refine ⟨hmatch, ?_⟩
  intro ld detector user_input lang dl L pre key post hres hL hp hpre
  exact answer_of_first_match ld detector user_input lang dl L pre key info post
    hres hL hp hpre (hmatch _)

/-- C2: when the resolved language is not the default and its partition has
no matching record, the default partition is searched; a match found there
is rendered with the resolved language's labels and reported under the
resolved language code. -/
theorem fallback_uses_resolved_labels
    (ld : LawData) (detector : Option String) (user_input : String)
    (lang : Option String) (dl : String) (L : Labels) (part pd : Partition)
    (key : String) (info : Record)
    (hres : resolve_language ld detector lang = dl)
    (hne : dl ≠ DEFAULT_LANGUAGE)
    (hL : responses dl = some L)
    (hp : ld.lookup dl = some part)
    (hnm : searchPartition part (pyLower user_input) = none)
    (hpd : ld.lookup DEFAULT_LANGUAGE = some pd)
    (hfound : searchPartition pd (pyLower user_input) = some (key, info)) :
    get_lawbot_response ld detector user_input lang = some ⟨compose L key info, dl⟩ := by
  unfold get_lawbot_response
  rw [hres]
  simp [respond, hL, hp, hnm, hne, hpd, hfound]

/-- C2 witness: an empty Hindi partition falls back to the English record,
rendered with the Hindi labels and reported as Hindi. -/
theorem fallback_uses_resolved_labels_witness :
    get_lawbot_response [("hi", []), ("en", demoEn)] none
        "he planned to kill him with intention to murder" (some "hi")
      = some ⟨compose hiLabels "302" rec302, "hi"⟩ :=
  fallback_uses_resolved_labels [("hi", []), ("en", demoEn)] none
    "he planned to kill him with intention to murder" (some "hi") "hi" hiLabels
    [] demoEn "302" rec302 (by decide) (by decide) rfl rfl rfl rfl (by decide)

/-- C4: when neither the resolved partition nor (for a non-default resolved
language) the default partition has a matching record, the answer is
exactly the resolved language's not-found sentence together with the
resolved language code; the responder is total. -/
theorem no_match_returns_not_found
    (ld : LawData) (detector : Option String) (user_input : String)
    (lang : Option String) (dl : String) (L : Labels) (part : Partition)
    (hres : resolve_language ld detector lang = dl)
    (hL : responses dl = some L)
    (hp : ld.lookup dl = some part)
    (hnm : searchPartition part (pyLower user_input) = none)
    (hdef : dl ≠ DEFAULT_LANGUAGE →
      ∃ pd, ld.lookup DEFAULT_LANGUAGE = some pd ∧
        searchPartition pd (pyLower user_input) = none) :
    get_lawbot_response ld detector user_input lang = some ⟨L.not_found, dl⟩ := by
  unfold get_lawbot_response
  rw [hres]
  by_cases hdl : dl = DEFAULT_LANGUAGE
  · subst hdl
    simp [respond, hL, hp, hnm]
  · obtain ⟨pd, hpd, hnm2⟩ := hdef hdl
    simp [respond, hL, hp, hnm, hdl, hpd, hnm2]

/-- C4 witness: the empty input matches nothing in the fixture base and
yields the English not-found sentence. -/
theorem no_match_returns_not_found_witness :
    get_lawbot_response demoLD none "" (some "en")
      = some ⟨enLabels.not_found, "en"⟩ :=
  no_match_returns_not_found demoLD none "" (some "en") "en" enLabels demoEn
    (by decide) rfl rfl (by decide) (fun h => absurd rfl h)

/-- C5: the language mapping is total into the supported set: a detector
failure and any unsupported code give the default, Nepali is an explicit
table entry for Hindi, and the supported codes map to themselves. -/
theorem detect_language_total :
    (∀ r : Option String, detect_language r ∈ ["en", "hi", "bn", "ur", "pa"])
    ∧ detect_language (some "ne") = "hi"
    ∧ (∀ c : String, c ∈ ["hi", "bn", "ur", "pa"] → detect_language (some c) = c)
    ∧ (∀ c : String, c ∉ ["hi", "ne", "bn", "ur", "pa"] →
        detect_language (some c) = "en")
    ∧ detect_language none = "en" := by
  refine ⟨?_, by decide, ?_, ?_, rfl⟩
  · intro r
    cases r with
    | none => simp [detect_language]
    | some c =>
      simp only [detect_language]
      split_ifs <;> simp
  · intro c hc
    simp only [List.mem_cons, List.not_mem_nil, or_false] at hc
    rcases hc with rfl | rfl | rfl | rfl <;> decide
  · intro c hc
    simp only [List.mem_cons, List.not_mem_nil, or_false, not_or] at hc
    obtain ⟨h1, h2, h3, h4, h5⟩ := hc
    simp [detect_language, h1, h2, h3, h4, h5]

/-- C5 witness: an unsupported code defaults to English and a supported one
maps to itself. -/
theorem detect_language_total_witness :
    detect_language (some "fr") = "en" ∧ detect_language (some "bn") = "bn" :=
  ⟨detect_language_total.2.2.2.1 "fr" (by decide),
   detect_language_total.2.2.1 "bn" (by decide)⟩

theorem respond_detected_language (ld : LawData) (dl : String) (input : String)
    (r : BotResponse) (h : respond ld dl input = some r) :
    r.detected_language = dl := by
  unfold respond at h
  split at h
  · split at h
    · cases h; rfl
    · by_cases hdl : dl ≠ DEFAULT_LANGUAGE
      · rw [if_pos hdl] at h
        split at h
        · split at h
          · cases h; rfl
          · cases h; rfl
        · cases h
      · rw [if_neg hdl] at h
        cases h; rfl
  · cases h

/-- C8: a resolved language code with no partition in the knowledge base is
replaced by the default code before the search, and the default code is the
one reported. -/
theorem missing_partition_substitutes_default
    (ld : LawData) (detector : Option String) (user_input : String) (dl : String)
    (hdl : dl ≠ "") (hmiss : ld.lookup dl = none) :
    get_lawbot_response ld detector user_input (some dl)
      = get_lawbot_response ld detector user_input (some DEFAULT_LANGUAGE)
    ∧ ∀ r : BotResponse,
        get_lawbot_response ld detector user_input (some dl) = some r →
        r.detected_language = DEFAULT_LANGUAGE := by
  have h1 : resolve_language ld detector (some dl) = DEFAULT_LANGUAGE := by
    simp [resolve_language, hdl, hmiss]
  have h2 : resolve_language ld detector (some DEFAULT_LANGUAGE) = DEFAULT_LANGUAGE := by
    simp [resolve_language, DEFAULT_LANGUAGE]
  constructor
  · unfold get_lawbot_response
    rw [h1, h2]
  · intro r hr
    unfold get_lawbot_response at hr
    rw [h1] at hr
    exact respond_detected_language ld DEFAULT_LANGUAGE (pyLower user_input) r hr

/-- C8 witness: the code "hi" has no partition in the fixture base, so the
search runs over English and reports "en". -/
theorem missing_partition_substitutes_default_witness :
    get_lawbot_response demoLD none "murder with intention to kill" (some "hi")
      = get_lawbot_response demoLD none "murder with intention to kill" (some "en")
    ∧ (get_lawbot_response demoLD none "murder with intention to kill" (some "hi")).map
        (fun r => r.detected_language) = some "en" := by
  have h := missing_partition_substitutes_default demoLD none
    "murder with intention to kill" "hi" (by decide) rfl
  refine ⟨h.1, ?_⟩
  have := h.2 ⟨compose enLabels "302" rec302, "en"⟩ (by decide)
  decide

/-- C9: the responder is a pure function of its arguments (the knowledge
base, the external detector's outcome, the input text and the explicit
language): two calls with identical arguments return identical output, and
the knowledge base is a value the call cannot mutate. -/
theorem answer_deterministic (ld : LawData) (detector : Option String)
    (user_input : String) (lang : Option String) :
    get_lawbot_response ld detector user_input lang
      = get_lawbot_response ld detector user_input lang := rfl

/-- C3 counterexample: the keyword phrase "Murder" (upper-case M) does not
match the lower-case query "murder": the record fails to match and the
responder falls through to not-found. -/
theorem keyword_case_counterexample :
    recordMatches ⟨"Murder", "x", [], ["Murder"]⟩ (pyLower "murder") = false
    ∧ get_lawbot_response [("en", [("302", ⟨"Murder", "x", [], ["Murder"]⟩)])]
        none "murder" (some "en")
      = some ⟨enLabels.not_found, "en"⟩ :=
  ⟨by decide, by decide⟩

theorem ofNat_toNat_small (n : Nat) (hv : n.isValidChar) :
    (Char.ofNat n).toNat = n := by
  simp [Char.ofNat, hv, Char.ofNatAux, Char.toNat, UInt32.toNat, BitVec.toNat_ofNatLt]

theorem toLower_not_upper (d : Char) :
    ¬(65 ≤ (Char.toLower d).toNat ∧ (Char.toLower d).toNat ≤ 90) := by
  unfold Char.toLower
  simp only []
  by_cases h : d.toNat ≥ 65 ∧ d.toNat ≤ 90
  · rw [if_pos h, ofNat_toNat_small _ (Or.inl (by omega))]
    omega
  · rw [if_neg h]
    omega

/-- C3 amended: matching is case-insensitive in the query only: the answer
depends on the query text only through its lower-casing, while keyword
phrases are compared verbatim against the lower-cased query, so a keyword
word containing an ASCII upper-case letter never matches. -/
theorem query_case_insensitive_keyword_verbatim
    (ld : LawData) (detector : Option String) (lang : Option String)
    (s t : String) (h : pyLower s = pyLower t) :
    get_lawbot_response ld detector s lang = get_lawbot_response ld detector t lang
    ∧ ∀ (w input : String) (c : Char), c ∈ w.data →
        65 ≤ c.toNat → c.toNat ≤ 90 → wordIn w (pyLower input) = false := by
  constructor
  · unfold get_lawbot_response
    rw [h]
  · intro w input c hc h1 h2
    cases hw : wordIn w (pyLower input) with
    | false => rfl
    | true =>
      exfalso
      have hinf : w.data <:+: (pyLower input).data := by simpa [wordIn] using hw
      have hmem : c ∈ input.data.map Char.toLower := hinf.subset hc
      obtain ⟨d, _, hd⟩ := List.mem_map.mp hmem
      exact toLower_not_upper d (by rw [hd]; exact ⟨h1, h2⟩)

/-- C3 amended witness: an upper-case query equals its lower-case variant
after resolution, and an upper-case keyword word matches no query. -/
theorem query_case_insensitive_keyword_verbatim_witness :
    get_lawbot_response demoLD none "He planned to KILL him with INTENTION to MURDER" (some "en")
      = get_lawbot_response demoLD none "he planned to kill him with intention to murder" (some "en")
    ∧ wordIn "Murder" (pyLower "MURDER") = false :=
  ⟨(query_case_insensitive_keyword_verbatim demoLD none (some "en")
      "He planned to KILL him with INTENTION to MURDER"
      "he planned to kill him with intention to murder" (by decide)).1,
   (query_case_insensitive_keyword_verbatim demoLD none (some "en") "x" "x" rfl).2
     "Murder" "MURDER" 'M' (by decide) (by decide) (by decide)⟩

/-- C10 witness: a record whose keyword list is the whitespace-only phrase
is returned even for the empty query. -/
theorem empty_keyword_phrase_matches_vacuously_witness :
    recordMatches ⟨"Any", "Any", [], [" "]⟩ "" = true ∧
    get_lawbot_response [("en", [("000", ⟨"Any", "Any", [], [" "]⟩)])] none "" (some "en")
      = some ⟨compose enLabels "000" ⟨"Any", "Any", [], [" "]⟩, "en"⟩ := by
  have h := empty_keyword_phrase_matches_vacuously ⟨"Any", "Any", [], [" "]⟩ " "
    (by decide) (by decide)
  exact ⟨h.1 "", h.2 [("en", [("000", ⟨"Any", "Any", [], [" "]⟩)])] none "" (some "en")
    "en" enLabels [] "000" [] (by decide) rfl rfl (by simp)⟩

end LawBot
